import Mathlib

/-!
Verification of the eval-hub SDK against its specification.

The Python sources under src/src/evalhub are embedded shallowly:
pure request construction and response handling become Lean functions,
the HTTP transport is modelled as explicit outcome values, and wall-clock
time is modelled as an explicit sequence of elapsed readings.  Parts of
the repository that only exist behind the SDK surface (the server job
store, the catalog loader, the original OCI persister, models/api.py)
are modelled from the specification text and are marked as such in
their doc comments.
-/

namespace EvalHubSDK

/-- Job lifecycle states, as enumerated by the specification and used by
the client (models/api.py JobStatus). -/
inductive JobStatus where
  | pending
  | running
  | completed
  | failed
  | cancelled
deriving DecidableEq

/-- Modelled from the spec: the wire value of each JobStatus member
(models/api.py is not under src/; the enum values are only used opaquely
as the status_filter query value). -/
def JobStatus.value : JobStatus → String
  | .pending => "pending"
  | .running => "running"
  | .completed => "completed"
  | .failed => "failed"
  | .cancelled => "cancelled"

/-- The list of statuses treated as terminal by wait_for_completion
(evaluations.py lines 145-149 and 276-280). -/
def waitTerminalStates : List JobStatus :=
  [JobStatus.completed, JobStatus.failed, JobStatus.cancelled]

/-- The membership test performed on each poll by wait_for_completion:
job.status in [COMPLETED, FAILED, CANCELLED]. -/
def JobStatus.isTerminalCheck (s : JobStatus) : Bool :=
  waitTerminalStates.contains s

/-- Terminal states per the specification section 3: COMPLETED, FAILED
and CANCELLED are terminal, PENDING and RUNNING are not. -/
def JobStatus.isTerminal : JobStatus → Bool
  | .completed => true
  | .failed => true
  | .cancelled => true
  | .pending => false
  | .running => false

/-- Modelled from the spec: the client-side view of an evaluation job
(models/api.py is not under src/): job id, current state, and creation
timestamp (used for list ordering).  The status accessor read by the
polling loop is the job state. -/
structure EvaluationJob where
  id : String
  status : JobStatus
  created_at : Nat
deriving DecidableEq

/-- Modelled from the spec: the JSON payload from which
EvaluationJob(**response.json()) is built (models/api.py is not under
src/). -/
structure JobJson where
  id : String
  state : JobStatus
  created_at : Nat
deriving DecidableEq

/-- Modelled from the spec: the EvaluationJob pydantic constructor
applied to a response payload. -/
def EvaluationJob.ofJson (j : JobJson) : EvaluationJob :=
  { id := j.id, status := j.state, created_at := j.created_at }

/-- An HTTP request as assembled by the client: method, path, and query
parameters in insertion order. -/
structure HttpRequest where
  method : String
  path : String
  params : List (String × String)
deriving DecidableEq

/-! ### cancel (evaluations.py lines 66-95 and 197-226)

The transport outcome of the DELETE request is explicit: success, an
httpx.HTTPStatusError carrying a status code and the optional message
extracted from the response body (none when the body does not parse as
JSON), or any other transport error. -/

/-- Outcome of the underlying DELETE request.  For statusError, the
second argument models the two-stage body read: none when
response.json() or .get raises, some m when the body parsed and m is
the value of its message field (possibly absent). -/
inductive DeleteOutcome where
  | success
  | statusError (code : Nat) (message : Option (Option String))
  | transportError (description : String)
deriving DecidableEq

/-- What the cancel call does: returns True, raises one of the two
translated errors, re-raises the HTTPStatusError, or propagates any
other transport error. -/
inductive CancelOutcome where
  | ok
  | jobNotFoundError (jobId : String)
  | jobCanNotBeCancelledError (jobId : String) (reason : Option String)
  | httpStatusError (code : Nat) (message : Option (Option String))
  | otherHttpError (description : String)
deriving DecidableEq

/-- AsyncEvaluationsClient.cancel (evaluations.py lines 81-95). -/
def asyncCancel (jobId : String) (outcome : DeleteOutcome) : CancelOutcome :=
  match outcome with
  | .success => .ok
  | .statusError code msg =>
      if code = 404 then .jobNotFoundError jobId
      else if code = 400 ∨ code = 409 then
        .jobCanNotBeCancelledError jobId
          (match msg with
           | none => none
           | some m => m)
      else .httpStatusError code msg
  | .transportError d => .otherHttpError d

/-- SyncEvaluationsClient.cancel (evaluations.py lines 212-226). -/
def syncCancel (jobId : String) (outcome : DeleteOutcome) : CancelOutcome :=
  match outcome with
  | .success => .ok
  | .statusError code msg =>
      if code = 404 then .jobNotFoundError jobId
      else if code = 400 ∨ code = 409 then
        .jobCanNotBeCancelledError jobId
          (match msg with
           | none => none
           | some m => m)
      else .httpStatusError code msg
  | .transportError d => .otherHttpError d

/-! ### submit and get_job (evaluations.py lines 34-64 and 167-195) -/

/-- AsyncEvaluationsClient.submit body handling: the response JSON is
parsed into an EvaluationJob. -/
def asyncSubmit (responseJson : JobJson) : EvaluationJob :=
  EvaluationJob.ofJson responseJson

/-- SyncEvaluationsClient.submit body handling. -/
def syncSubmit (responseJson : JobJson) : EvaluationJob :=
  EvaluationJob.ofJson responseJson

/-- The request issued by AsyncEvaluationsClient.get_job. -/
def asyncGetJobRequest (jobId : String) : HttpRequest :=
  { method := "GET", path := "/evaluations/jobs/" ++ jobId, params := [] }

/-- The request issued by SyncEvaluationsClient.get_job. -/
def syncGetJobRequest (jobId : String) : HttpRequest :=
  { method := "GET", path := "/evaluations/jobs/" ++ jobId, params := [] }

/-- AsyncEvaluationsClient.get_job response handling. -/
def asyncGetJob (responseJson : JobJson) : EvaluationJob :=
  EvaluationJob.ofJson responseJson

/-- SyncEvaluationsClient.get_job response handling. -/
def syncGetJob (responseJson : JobJson) : EvaluationJob :=
  EvaluationJob.ofJson responseJson

/-! ### list (evaluations.py lines 97-121 and 228-252)

The params dict is built with Python truthiness: a None status adds
nothing, a None or zero limit adds nothing (0 is falsy in Python). -/

/-- Query parameters built by AsyncEvaluationsClient.list. -/
def asyncListParams (status : Option JobStatus) (limit : Option Int) :
    List (String × String) :=
  (match status with
   | some s => [("status_filter", s.value)]
   | none => []) ++
  (match limit with
   | some n => if n = 0 then [] else [("limit", toString n)]
   | none => [])

/-- Query parameters built by SyncEvaluationsClient.list. -/
def syncListParams (status : Option JobStatus) (limit : Option Int) :
    List (String × String) :=
  (match status with
   | some s => [("status_filter", s.value)]
   | none => []) ++
  (match limit with
   | some n => if n = 0 then [] else [("limit", toString n)]
   | none => [])

/-- The request issued by AsyncEvaluationsClient.list. -/
def asyncListRequest (status : Option JobStatus) (limit : Option Int) :
    HttpRequest :=
  { method := "GET", path := "/evaluations/jobs"
    params := asyncListParams status limit }

/-- The request issued by SyncEvaluationsClient.list. -/
def syncListRequest (status : Option JobStatus) (limit : Option Int) :
    HttpRequest :=
  { method := "GET", path := "/evaluations/jobs"
    params := syncListParams status limit }

/-- Modelled from the spec: the JobsList response model (models/api.py is
not under src/); list returns its items. -/
structure JobsList where
  total_count : Nat
  items : List EvaluationJob
deriving DecidableEq

/-- AsyncEvaluationsClient.list response handling. -/
def asyncListItems (data : JobsList) : List EvaluationJob :=
  data.items

/-- SyncEvaluationsClient.list response handling. -/
def syncListItems (data : JobsList) : List EvaluationJob :=
  data.items

/-! ### wait_for_completion (evaluations.py lines 123-157 and 254-288)

The loop is embedded with an explicit fuel bound; polls k is the job
returned by the k-th get_job call and elapsed k is the reading of
time.time() - start_time taken right after that call.  A none result
means the loop was still polling after fuel iterations. -/

/-- Result of the polling loop: the terminal job, or the TimeoutError
raised with the job id and timeout value interpolated into its
message. -/
inductive WaitOutcome where
  | finished (job : EvaluationJob)
  | timedOut (jobId : String) (timeout : Option ℚ)
deriving DecidableEq

/-- The timeout test performed each iteration:
if timeout and (time.time() - start_time) > timeout.  A None or zero
timeout is falsy, so the deadline check is skipped entirely. -/
def timeoutTripped (timeout : Option ℚ) (elapsed : ℚ) : Bool :=
  match timeout with
  | none => false
  | some t => if t = 0 then false else if t < elapsed then true else false

/-- AsyncEvaluationsClient.wait_for_completion loop (lines 140-157),
unrolled from poll index k with the given fuel. -/
def asyncWaitFrom (jobId : String) (polls : Nat → EvaluationJob)
    (elapsed : Nat → ℚ) (timeout : Option ℚ) :
    Nat → Nat → Option WaitOutcome
  | 0, _ => none
  | fuel + 1, k =>
      let job := polls k
      if job.status.isTerminalCheck then some (.finished job)
      else if timeoutTripped timeout (elapsed k) then
        some (.timedOut jobId timeout)
      else asyncWaitFrom jobId polls elapsed timeout fuel (k + 1)

/-- SyncEvaluationsClient.wait_for_completion loop (lines 271-288),
unrolled from poll index k with the given fuel. -/
def syncWaitFrom (jobId : String) (polls : Nat → EvaluationJob)
    (elapsed : Nat → ℚ) (timeout : Option ℚ) :
    Nat → Nat → Option WaitOutcome
  | 0, _ => none
  | fuel + 1, k =>
      let job := polls k
      if job.status.isTerminalCheck then some (.finished job)
      else if timeoutTripped timeout (elapsed k) then
        some (.timedOut jobId timeout)
      else syncWaitFrom jobId polls elapsed timeout fuel (k + 1)

/-- AsyncEvaluationsClient.wait_for_completion entered at the first
poll. -/
def asyncWaitForCompletion (jobId : String) (polls : Nat → EvaluationJob)
    (elapsed : Nat → ℚ) (timeout : Option ℚ) (fuel : Nat) :
    Option WaitOutcome :=
  asyncWaitFrom jobId polls elapsed timeout fuel 0

/-- SyncEvaluationsClient.wait_for_completion entered at the first
poll. -/
def syncWaitForCompletion (jobId : String) (polls : Nat → EvaluationJob)
    (elapsed : Nat → ℚ) (timeout : Option ℚ) (fuel : Nat) :
    Option WaitOutcome :=
  syncWaitFrom jobId polls elapsed timeout fuel 0

/-! ### Job store state machine

The server job store and dispatcher are not under src/ (only the client
is); they are modelled from the specification sections 4.1 and 4.3. -/

/-- One benchmark run result held on a job (specification section 3). -/
structure EvaluationResultRec where
  benchmark_id : String
  metrics : List (String × ℚ)
  resultStatus : String
deriving DecidableEq

/-- A job record as held by the server job store. -/
structure StoredJob where
  id : String
  state : JobStatus
  results : List EvaluationResultRec
deriving DecidableEq

/-- Error raised by the transition primitive. -/
inductive TransitionError where
  | invalidTransition
deriving DecidableEq

/-- The transition edges of the job state machine (specification section
4.3): PENDING to RUNNING, RUNNING to COMPLETED, RUNNING to FAILED,
PENDING to CANCELLED, RUNNING to CANCELLED. -/
def allowedTransition : JobStatus → JobStatus → Bool
  | .pending, .running => true
  | .running, .completed => true
  | .running, .failed => true
  | .pending, .cancelled => true
  | .running, .cancelled => true
  | _, _ => false

/-- Modelled from the spec: the job store transition primitive
(section 4.1; the server is not under src/).  It atomically checks that
the requested change follows an edge of the section 4.3 state machine,
applies the mutation to the benchmark results, and sets the new state;
otherwise it fails with InvalidTransitionError and leaves the job
untouched. -/
def jobTransition (j : StoredJob) (target : JobStatus)
    (mutation : List EvaluationResultRec → List EvaluationResultRec) :
    Except TransitionError StoredJob :=
  if allowedTransition j.state target then
    .ok { j with state := target, results := mutation j.results }
  else .error .invalidTransition

/-! ### Server-side list semantics

Modelled from the spec section 4.1: jobs ordered by creation time
descending, an exact status match filter, and limit truncation. -/

/-- Most-recent-first ordering on jobs: creation time descending. -/
def jobDescOrder (a b : EvaluationJob) : Prop :=
  b.created_at ≤ a.created_at

instance : DecidableRel jobDescOrder :=
  fun a b => inferInstanceAs (Decidable (b.created_at ≤ a.created_at))

instance : IsTotal EvaluationJob jobDescOrder :=
  ⟨fun a b => Nat.le_total b.created_at a.created_at⟩

instance : IsTrans EvaluationJob jobDescOrder :=
  ⟨fun _ _ _ hab hbc => Nat.le_trans hbc hab⟩

/-- Modelled from the spec: the job store list operation (section 4.1;
the server is not under src/): order by creation time descending,
restrict to the exact state when a status filter is given, truncate to
the limit when one is given. -/
def listJobsServer (store : List EvaluationJob)
    (statusFilter : Option JobStatus) (limit : Option Nat) :
    List EvaluationJob :=
  let sorted := List.insertionSort jobDescOrder store
  let filtered := match statusFilter with
    | none => sorted
    | some s => sorted.filter (fun j => j.status = s)
  match limit with
  | none => filtered
  | some n => filtered.take n

/-! ### OCI artifact adapter (adapter/oci/adapter.py)

The adapter bridges the new artifact models to the original persister.
The original persister (adapter/oci/persister.py) and the api models
(models/api.py) are not under src/ and are modelled from the
specification where needed.  File contents are modelled explicitly so
that the packaged byte size is a meaningful quantity. -/

/-- A file on disk: its path and its content bytes. -/
structure SourceFile where
  path : String
  content : List Nat
deriving DecidableEq

/-- Total byte size of a collection of files. -/
def totalByteSize (files : List SourceFile) : Nat :=
  (files.map (fun f => f.content.length)).sum

/-- Files location handed to the original persister (models/api.py
EvaluationJobFilesLocation; the adapter passes the spec id and a
path). -/
structure EvaluationJobFilesLocation where
  job_id : String
  path : String
deriving DecidableEq

/-- OCI coordinate handed to the original persister (models/api.py
OCICoordinate). -/
structure OCICoordinate where
  oci_ref : String
  oci_subject : Option String
deriving DecidableEq

/-- Response of the original persister (models/api.py PersistResponse,
shaped as exercised by tests/unit/test_oci_models.py): digest, pushed
reference, and a count of pushed files. -/
structure PersistResponse where
  job_id : String
  oci_ref : String
  digest : String
  files_count : Nat
  metadata : List (String × String)
deriving DecidableEq

/-- Job resource metadata built by the adapter (models/api.py
EvaluationJobResource). -/
structure EvaluationJobResource where
  id : String
  tenant : String
  created_at : ℚ
  updated_at : ℚ
deriving DecidableEq

/-- Target model configuration (models/api.py ModelConfig). -/
structure ModelConfig where
  url : String
  name : String
deriving DecidableEq

/-- One benchmark request attached to a job (models/api.py
BenchmarkConfig). -/
structure BenchmarkConfig where
  id : String
  provider_id : String
  parameters : List (String × String)
deriving DecidableEq

/-- Job status record (models/api.py EvaluationJobStatus). -/
structure EvaluationJobStatusRec where
  state : JobStatus
deriving DecidableEq

/-- The nested api-level evaluation job the adapter constructs
(models/api.py EvaluationJob). -/
structure ApiEvaluationJob where
  resource : EvaluationJobResource
  status : EvaluationJobStatusRec
  model : ModelConfig
  benchmarks : List BenchmarkConfig
deriving DecidableEq

/-- The artifact specification consumed by the adapter
(adapter/models.py OCIArtifactSpec, with fields as used by
adapter.py). -/
structure OCIArtifactSpec where
  id : String
  benchmark_id : String
  model_name : String
  base_path : Option String
  files : List String
deriving DecidableEq

/-- The persistence result returned by the adapter (adapter/models.py
OCIArtifactResult, with fields as used by adapter.py). -/
structure OCIArtifactResult where
  digest : String
  reference : String
  size_bytes : Nat
deriving DecidableEq

/-- The persister state kept by OCIArtifactPersister: only the registry
URL survives construction (adapter.py lines 41-42). -/
structure OCIArtifactPersisterState where
  registry_url : String
deriving DecidableEq

/-- OCIArtifactPersister.__init__ (adapter.py lines 26-42): the registry
URL falls back to localhost:5000 when absent or empty (Python or on a
falsy value); username, password and insecure are accepted and
discarded. -/
def mkOCIArtifactPersister (registry_url : Option String)
    ( username password : Option String) ( insecure : Bool) :
    OCIArtifactPersisterState :=
  { registry_url :=
      match registry_url with
      | none => "localhost:5000"
      | some s => if s = "" then "localhost:5000" else s }

/-- Dirname of a path, modelling pathlib parent as used for
spec.files[0].parent. -/
def parentPath (p : String) : String :=
  String.intercalate "/" ((p.splitOn "/").dropLast)

/-- The files location built inside _persist_async (adapter.py lines
64-67): the spec id plus the base path, falling back to the parent of
the first file. -/
def persistFilesLocation (spec : OCIArtifactSpec) :
    EvaluationJobFilesLocation :=
  { job_id := spec.id
    path :=
      match spec.base_path with
      | some p => p
      | none => parentPath (spec.files.headD "") }

/-- The coordinate built inside _persist_async (adapter.py lines
69-72). -/
def persistCoordinate (P : OCIArtifactPersisterState)
    (spec : OCIArtifactSpec) : OCICoordinate :=
  { oci_ref :=
      P.registry_url ++ "/eval-results/" ++ spec.benchmark_id ++ ":" ++ spec.id
    oci_subject := none }

/-- The job structure built inside _persist_async for the push
(adapter.py lines 74-95); now stands for the datetime.now(UTC)
readings. -/
def persistJob (spec : OCIArtifactSpec) (now : ℚ) : ApiEvaluationJob :=
  { resource :=
      { id := spec.id, tenant := "default"
        created_at := now, updated_at := now }
    status := { state := .running }
    model := { url := "http://localhost", name := spec.model_name }
    benchmarks :=
      [{ id := spec.benchmark_id, provider_id := "unknown", parameters := [] }] }

/-- OCIArtifactPersister._persist_async (adapter.py lines 55-103): build
the files location, coordinate and job, push through the original
persister capability, and translate the response; size_bytes is
files_count * 1024. -/
def persistAsync (P : OCIArtifactPersisterState)
    (persistCap : EvaluationJobFilesLocation → OCICoordinate →
      ApiEvaluationJob → PersistResponse)
    (now : ℚ) (spec : OCIArtifactSpec) : OCIArtifactResult :=
  let response :=
    persistCap (persistFilesLocation spec) (persistCoordinate P spec)
      (persistJob spec now)
  { digest := response.digest
    reference := response.oci_ref
    size_bytes := response.files_count * 1024 }

/-- Hexadecimal rendering of a number padded to 64 digits. -/
def hex64 (n : Nat) : String :=
  let ds := Nat.toDigits 16 n
  String.mk (List.replicate (64 - ds.length) '0' ++ ds)

/-- Modelled from the spec: the content digest over the packaged files
(sha256: plus 64 hex characters, section 3); the hash itself is outside
src/ and is modelled as a deterministic computable function of the file
contents. -/
def specDigest (files : List SourceFile) : String :=
  "sha256:" ++ hex64
    (files.foldl
      (fun h f =>
        f.content.foldl (fun h b => (h * 31 + b) % (2 ^ 256))
          (h * 37 + f.path.length))
      7)

/-- Modelled from the spec: the original OCI persister
(adapter/oci/persister.py is not under src/): it packages the files
found at the given location, computes a content digest over them,
pushes them to the coordinate, and reports the pushed reference, the
digest and the file count.  fs models the filesystem contents at each
path. -/
def specOCIPersist (fs : String → List SourceFile)
    (loc : EvaluationJobFilesLocation) (coord : OCICoordinate)
    (_job : ApiEvaluationJob) : PersistResponse :=
  { job_id := loc.job_id
    oci_ref := coord.oci_ref
    digest := specDigest (fs loc.path)
    files_count := (fs loc.path).length
    metadata := [] }

/-! ### Benchmark catalog entries (providers.py and the catalog)

The catalog loader and the BenchmarkInfo model live server-side or in
models/api.py, neither under src/; they are modelled from the
specification section 3.  The client-side mapping in list_benchmarks is
embedded from providers.py. -/

/-- A raw provider-config benchmark entry as read from the catalog
source: few-shot count and dataset size may be null or missing. -/
structure RawBenchmarkConfig where
  id : String
  name : String
  description : String
  category : String
  metrics : List String
  num_few_shot : Option Nat
  dataset_size : Option Nat
  tags : List String
deriving DecidableEq

/-- A loaded catalog benchmark entry: the few-shot count is always
present (a plain Nat), the dataset size stays optional. -/
structure CatalogBenchmark where
  id : String
  name : String
  description : String
  category : String
  metrics : List String
  num_few_shot : Nat
  dataset_size : Option Nat
  tags : List String
deriving DecidableEq

/-- Modelled from the spec: catalog loading of one benchmark entry
(section 3; the loader is not under src/): a null or missing few-shot
count maps to 0, a null dataset size is preserved as absent. -/
def loadCatalogBenchmark (raw : RawBenchmarkConfig) : CatalogBenchmark :=
  { id := raw.id, name := raw.name, description := raw.description
    category := raw.category, metrics := raw.metrics
    num_few_shot := raw.num_few_shot.getD 0
    dataset_size := raw.dataset_size
    tags := raw.tags }

/-- One item of the benchmarks listing JSON as read by list_benchmarks
via item.get: every field may be absent. -/
structure BenchmarkItemJson where
  id : Option String
  benchmark_id : Option String
  label : Option String
  name : Option String
  description : Option String
  category : Option String
  metrics : Option (List String)
  tags : Option (List String)
  dataset_size : Option Nat
  num_few_shot : Option Nat
deriving DecidableEq

/-- The BenchmarkInfo record built by list_benchmarks, with the
optionality of each field as produced by the item.get calls
(providers.py lines 88-99 and 203-214). -/
structure BenchmarkInfo where
  benchmark_id : Option String
  name : Option String
  description : String
  category : Option String
  metrics : List String
  tags : List String
  dataset_size : Option Nat
  supports_few_shot : Bool
  default_few_shot : Option Nat
deriving DecidableEq

/-- The per-item mapping of list_benchmarks (providers.py lines 85-101
and 200-216): id falling back to benchmark_id, label falling back to
name, description defaulting to the empty string, metrics and tags
defaulting to empty lists, dataset_size and num_few_shot passed through
as-is, supports_few_shot always true. -/
def toBenchmarkInfo (item : BenchmarkItemJson) : BenchmarkInfo :=
  { benchmark_id :=
      match item.id with
      | some v => some v
      | none => item.benchmark_id
    name :=
      match item.label with
      | some v => some v
      | none => item.name
    description := item.description.getD ""
    category := item.category
    metrics := item.metrics.getD []
    tags := item.tags.getD []
    dataset_size := item.dataset_size
    supports_few_shot := true
    default_few_shot := item.num_few_shot }

/-- Modelled from the spec: the JSON serialization of a loaded catalog
benchmark as served by the benchmarks endpoint (the server is not under
src/), with the field names seen in the unit-test fixtures: id, label,
description, category, metrics, num_few_shot, dataset_size, tags. -/
def catalogBenchmarkWire (b : CatalogBenchmark) : BenchmarkItemJson :=
  { id := some b.id
    benchmark_id := none
    label := some b.name
    name := none
    description := some b.description
    category := some b.category
    metrics := some b.metrics
    tags := some b.tags
    dataset_size := b.dataset_size
    num_few_shot := some b.num_few_shot }

/-! ## Theorems -/

/-- C1: the job state changes only along the edges PENDING to RUNNING,
RUNNING to COMPLETED, RUNNING to FAILED, PENDING to CANCELLED and
RUNNING to CANCELLED; from a terminal state (COMPLETED, FAILED or
CANCELLED) every attempted transition fails with InvalidTransitionError
and no benchmark-result mutation is applied; the terminal set agrees
with the membership test used by wait_for_completion. -/
theorem job_state_machine_terminal_closed (j : StoredJob)
    (target : JobStatus)
    (mutation : List EvaluationResultRec → List EvaluationResultRec) :
    (j.state.isTerminal = true →
      jobTransition j target mutation = .error .invalidTransition) ∧
    (∀ r, jobTransition j target mutation = .ok r →
      ((j.state = .pending ∧ target = .running) ∨
       (j.state = .running ∧ target = .completed) ∨
       (j.state = .running ∧ target = .failed) ∨
       (j.state = .pending ∧ target = .cancelled) ∨
       (j.state = .running ∧ target = .cancelled))) ∧
    (j.state.isTerminal = j.state.isTerminalCheck) := by
  obtain ⟨jid, s, res⟩ := j
  cases s <;> cases target <;>
    simp [jobTransition, allowedTransition, JobStatus.isTerminal,
      JobStatus.isTerminalCheck, waitTerminalStates]

/-- Witness for C1 at a concrete terminal job: a COMPLETED job rejects a
transition back to RUNNING. -/
theorem job_state_machine_terminal_closed_witness :
    jobTransition ⟨"job-1", .completed, []⟩ .running id =
      .error .invalidTransition :=
  (job_state_machine_terminal_closed ⟨"job-1", .completed, []⟩ .running id).1
    rfl

/-- C3 (amended): cancel returns True on DELETE success; it raises
JobNotFoundError exactly on HTTP 404; on HTTP 400 or 409 it raises
JobCanNotBeCancelledError whose reason is the message field of the JSON
error body when that body parses and carries one, and None otherwise
(nothing forces the reason to reference the job state); any other HTTP
status error is re-raised unchanged, as is any other transport error;
sync and async agree. -/
theorem cancel_error_translation (jobId : String) :
    asyncCancel jobId .success = .ok ∧
    (∀ code msg,
      asyncCancel jobId (.statusError code msg) = .jobNotFoundError jobId ↔
        code = 404) ∧
    (∀ code msg, code = 400 ∨ code = 409 →
      asyncCancel jobId (.statusError code msg) =
        .jobCanNotBeCancelledError jobId (Option.join msg)) ∧
    (∀ code msg r,
      asyncCancel jobId (.statusError code msg) =
        .jobCanNotBeCancelledError jobId r →
      (code = 400 ∨ code = 409)) ∧
    (∀ code msg, code ≠ 404 → code ≠ 400 → code ≠ 409 →
      asyncCancel jobId (.statusError code msg) =
        .httpStatusError code msg) ∧
    (∀ d, asyncCancel jobId (.transportError d) = .otherHttpError d) ∧
    (∀ outcome, syncCancel jobId outcome = asyncCancel jobId outcome) := by
  refine ⟨rfl, ?_, ?_, ?_, ?_, fun _ => rfl, fun _ => rfl⟩
  · intro code msg
    constructor
    · intro h
      by_cases h404 : code = 404
      · exact h404
      · by_cases h4 : code = 400 ∨ code = 409 <;>
          simp [asyncCancel, h404, h4] at h
    · intro h
      subst h
      simp [asyncCancel]
  · rintro code msg (rfl | rfl) <;> cases msg <;> simp [asyncCancel]
  · intro code msg r h
    by_cases h404 : code = 404
    · simp [asyncCancel, h404] at h
    · by_cases h4 : code = 400 ∨ code = 409
      · exact h4
      · simp [asyncCancel, h404, h4] at h
  · intro code msg h404 h400 h409
    have h4 : ¬(code = 400 ∨ code = 409) := by
      rintro (rfl | rfl) <;> simp at h400 h409
    simp [asyncCancel, h404, h4]

/-- Witness for C3 at a concrete input: a 409 answer whose body carries
a message yields a JobCanNotBeCancelledError with that message as
reason. -/
theorem cancel_error_translation_witness :
    asyncCancel "job_456" (.statusError 409 (some (some "completed"))) =
      .jobCanNotBeCancelledError "job_456" (some "completed") :=
  (cancel_error_translation "job_456").2.2.1 409 (some (some "completed"))
    (Or.inr rfl)

/-- Counterexample for C3 as stated: on an HTTP 400 answer whose body is
not JSON (the input of the unit test
test_cancel_job_cannot_be_cancelled_without_body), the raised
JobCanNotBeCancelledError carries no reason at all, so it does not carry
a human-readable reason referencing the job state. -/
theorem cancel_reason_counterexample :
    asyncCancel "job_789" (.statusError 400 none) =
      .jobCanNotBeCancelledError "job_789" none ∧
    ∀ r : String,
      asyncCancel "job_789" (.statusError 400 none) ≠
        .jobCanNotBeCancelledError "job_789" (some r) := by
  refine ⟨by decide, ?_⟩
  intro r hr
  have h1 : asyncCancel "job_789" (.statusError 400 none) =
      .jobCanNotBeCancelledError "job_789" none := by decide
  rw [h1] at hr
  simp at hr

/-- C5 (amended): persist returns a record carrying the content digest
computed over the packaged files and the registry reference that was
pushed, but its size_bytes field is 1024 times the pushed file count,
not the total byte size of the packaged files. -/
theorem persist_result_fields (P : OCIArtifactPersisterState)
    (fs : String → List SourceFile) (now : ℚ) (spec : OCIArtifactSpec) :
    persistAsync P (specOCIPersist fs) now spec =
      { digest := specDigest (fs (persistFilesLocation spec).path)
        reference := (persistCoordinate P spec).oci_ref
        size_bytes := (fs (persistFilesLocation spec).path).length * 1024 } :=
  rfl

/-- Concrete filesystem for the C5 counterexample: one 5-byte file under
the out directory. -/
def cexFs : String → List SourceFile := fun p =>
  if p = "out" then [⟨"out/results.json", [1, 2, 3, 4, 5]⟩] else []

/-- Concrete artifact specification for the C5 counterexample. -/
def cexSpec : OCIArtifactSpec :=
  ⟨"job-1", "bench-1", "model-1", some "out", []⟩

/-- Concrete persister for the C5 counterexample. -/
def cexPersister : OCIArtifactPersisterState :=
  mkOCIArtifactPersister (some "registry.example") none none false

/-- Counterexample for C5 as stated: for a push of a single 5-byte file
the returned size_bytes is 1024, which is not the total byte size of
the packaged files. -/
theorem persist_size_counterexample :
    (persistAsync cexPersister (specOCIPersist cexFs) 0 cexSpec).size_bytes
      = 1024 ∧
    totalByteSize (cexFs (persistFilesLocation cexSpec).path) = 5 ∧
    (persistAsync cexPersister (specOCIPersist cexFs) 0 cexSpec).size_bytes
      ≠ totalByteSize (cexFs (persistFilesLocation cexSpec).path) := by
  decide

/-- C6: the registry reference the persister constructs and pushes to is
its registry URL followed by /eval-results/, the benchmark id of the
specification, a colon, and the job id; the reference reported back in
the result is that same constructed reference. -/
theorem oci_reference_form (P : OCIArtifactPersisterState)
    (spec : OCIArtifactSpec) :
    (persistCoordinate P spec).oci_ref =
      P.registry_url ++ "/eval-results/" ++ spec.benchmark_id ++ ":" ++
        spec.id ∧
    ∀ fs now,
      (persistAsync P (specOCIPersist fs) now spec).reference =
        (persistCoordinate P spec).oci_ref :=
  ⟨rfl, fun _ _ => rfl⟩

/-- C9: username, password and insecure are discarded at construction:
two persisters built with the same registry URL and arbitrary
credentials are equal, build the same files location, coordinate and
job, and produce the same persist result against any push capability. -/
theorem credentials_discarded (ru : Option String)
    (u₁ p₁ u₂ p₂ : Option String) (i₁ i₂ : Bool) :
    mkOCIArtifactPersister ru u₁ p₁ i₁ = mkOCIArtifactPersister ru u₂ p₂ i₂ ∧
    ∀ cap now spec,
      (persistFilesLocation spec,
        persistCoordinate (mkOCIArtifactPersister ru u₁ p₁ i₁) spec,
        persistJob spec now) =
      (persistFilesLocation spec,
        persistCoordinate (mkOCIArtifactPersister ru u₂ p₂ i₂) spec,
        persistJob spec now) ∧
      persistAsync (mkOCIArtifactPersister ru u₁ p₁ i₁) cap now spec =
        persistAsync (mkOCIArtifactPersister ru u₂ p₂ i₂) cap now spec :=
  ⟨rfl, fun _ _ _ => ⟨rfl, rfl⟩⟩

/-- C4 (amended): list issues a GET on the jobs endpoint; the
status_filter parameter carries the status value exactly when a status
is supplied, and the limit parameter carries the decimal string of the
limit exactly when a nonzero limit is supplied (zero is falsy in Python
and is dropped); server side, the listing is ordered by creation time
descending, a status filter restricts to exact state matches, a limit
truncates the otherwise-identical listing, and no filter returns all
jobs. -/
theorem list_request_filtering
    (status : Option JobStatus) (limit : Option Int)
    (store : List EvaluationJob) (sf : Option JobStatus)
    (limOpt : Option Nat) (s : JobStatus) (lim : Nat) :
    ((asyncListRequest status limit).method = "GET" ∧
     (asyncListRequest status limit).path = "/evaluations/jobs") ∧
    (∀ v, status = some v →
      ("status_filter", v.value) ∈ asyncListParams status limit) ∧
    (status = none →
      ∀ x, ("status_filter", x) ∉ asyncListParams status limit) ∧
    (∀ n, limit = some n → n ≠ 0 →
      ("limit", toString n) ∈ asyncListParams status limit) ∧
    ((limit = none ∨ limit = some 0) →
      ∀ x, ("limit", x) ∉ asyncListParams status limit) ∧
    List.Sorted jobDescOrder (listJobsServer store sf limOpt) ∧
    (∀ j ∈ listJobsServer store (some s) limOpt, j.status = s) ∧
    (listJobsServer store sf (some lim) =
      (listJobsServer store sf none).take lim) ∧
    (listJobsServer store none none).Perm store := by
  refine ⟨⟨rfl, rfl⟩, ?_, ?_, ?_, ?_, ?_, ?_, ?_,
    List.perm_insertionSort jobDescOrder store⟩
  · rintro v rfl
    cases limit with
    | none => simp [asyncListParams]
    | some n => by_cases hn : n = 0 <;> simp [asyncListParams, hn]
  · rintro rfl x hx
    cases limit with
    | none => simp [asyncListParams] at hx
    | some n =>
      by_cases hn : n = 0 <;> simp [asyncListParams, hn] at hx
  · rintro n rfl hn
    cases status <;> simp [asyncListParams, hn]
  · rintro h x hx
    rcases h with rfl | rfl <;> cases status <;>
      simp [asyncListParams] at hx
  · have hsorted : List.Sorted jobDescOrder
        (List.insertionSort jobDescOrder store) :=
      List.sorted_insertionSort jobDescOrder store
    have hfiltered : List.Sorted jobDescOrder
        (match sf with
         | none => List.insertionSort jobDescOrder store
         | some v =>
             (List.insertionSort jobDescOrder store).filter
               (fun j => j.status = v)) := by
      cases sf with
      | none => exact hsorted
      | some v => exact hsorted.filter _
    cases limOpt with
    | none => exact hfiltered
    | some n => exact hfiltered.sublist (List.take_sublist _ _)
  · intro j hj
    have hj' : j ∈ (List.insertionSort jobDescOrder store).filter
        (fun x => x.status = s) := by
      cases limOpt with
      | none => exact hj
      | some n => exact List.mem_of_mem_take hj
    exact of_decide_eq_true (List.mem_filter.mp hj').2
  · cases sf <;> rfl

/-- Witness store for the C4 theorem. -/
def demoStore : List EvaluationJob :=
  [⟨"a", .completed, 1⟩, ⟨"b", .running, 3⟩, ⟨"c", .completed, 2⟩]

/-- Witness for C4 at concrete inputs: a nonzero limit of 7 appears as
the decimal parameter, and a COMPLETED filter over the demo store only
yields COMPLETED jobs. -/
theorem list_request_filtering_witness :
    ("limit", "7") ∈ asyncListParams none (some 7) ∧
    (∀ j ∈ listJobsServer demoStore (some .completed) (some 2),
      j.status = .completed) := by
  have h := list_request_filtering none (some 7) demoStore (some .completed)
    (some 2) .completed 2
  exact ⟨h.2.2.2.1 7 rfl (by decide), h.2.2.2.2.2.2.1⟩

/-- Counterexample for C4 as stated: a supplied limit of 0 produces no
limit parameter at all (the request is the bare jobs listing), although
the claim requires the decimal parameter 0 whenever a limit is
supplied. -/
theorem list_limit_zero_counterexample :
    asyncListParams none (some 0) = [] ∧
    syncListParams none (some 0) = [] ∧
    asyncListRequest none (some 0) =
      { method := "GET", path := "/evaluations/jobs", params := [] } := by
  decide

/-- C7: an entry exposed through the benchmark listing pipeline carries
a few-shot count of exactly the configured value defaulting to 0 — a
null or missing count yields 0 and the field is never absent — while a
null dataset size stays absent and in particular is never turned into
0. -/
theorem benchmark_fewshot_default (raw : RawBenchmarkConfig) :
    (toBenchmarkInfo (catalogBenchmarkWire
        (loadCatalogBenchmark raw))).default_few_shot =
      some (raw.num_few_shot.getD 0) ∧
    (raw.num_few_shot = none →
      (toBenchmarkInfo (catalogBenchmarkWire
          (loadCatalogBenchmark raw))).default_few_shot = some 0) ∧
    (toBenchmarkInfo (catalogBenchmarkWire
        (loadCatalogBenchmark raw))).default_few_shot ≠ none ∧
    (toBenchmarkInfo (catalogBenchmarkWire
        (loadCatalogBenchmark raw))).dataset_size = raw.dataset_size ∧
    (raw.dataset_size = none →
      (toBenchmarkInfo (catalogBenchmarkWire
          (loadCatalogBenchmark raw))).dataset_size = none ∧
      ∀ n, (toBenchmarkInfo (catalogBenchmarkWire
          (loadCatalogBenchmark raw))).dataset_size ≠ some n) := by
  refine ⟨rfl, ?_, by
    simp [toBenchmarkInfo, catalogBenchmarkWire, loadCatalogBenchmark],
    rfl, ?_⟩
  · intro h
    simp [toBenchmarkInfo, catalogBenchmarkWire, loadCatalogBenchmark, h]
  · intro h
    simp [toBenchmarkInfo, catalogBenchmarkWire, loadCatalogBenchmark, h]

/-- Witness entry for C7: both few-shot count and dataset size null in
the configuration. -/
def demoRawBenchmark : RawBenchmarkConfig :=
  ⟨"gsm8k", "GSM8K", "Grade School Math 8K", "math", ["accuracy"],
    none, none, []⟩

/-- Witness for C7 at a concrete entry: null few-shot maps to 0, null
dataset size stays absent. -/
theorem benchmark_fewshot_default_witness :
    (toBenchmarkInfo (catalogBenchmarkWire
        (loadCatalogBenchmark demoRawBenchmark))).default_few_shot =
      some 0 ∧
    (toBenchmarkInfo (catalogBenchmarkWire
        (loadCatalogBenchmark demoRawBenchmark))).dataset_size = none :=
  ⟨(benchmark_fewshot_default demoRawBenchmark).2.1 rfl,
    ((benchmark_fewshot_default demoRawBenchmark).2.2.2.2 rfl).1⟩

/-! ### Polling-loop lemmas shared by the wait_for_completion claims -/

/-- One non-stopping iteration of the polling loop advances to the next
poll index. -/
theorem asyncWaitFrom_continue (jobId : String)
    (polls : Nat → EvaluationJob) (elapsed : Nat → ℚ)
    (timeout : Option ℚ) (fuel k : Nat)
    (h1 : (polls k).status.isTerminalCheck = false)
    (h2 : timeoutTripped timeout (elapsed k) = false) :
    asyncWaitFrom jobId polls elapsed timeout (fuel + 1) k =
      asyncWaitFrom jobId polls elapsed timeout fuel (k + 1) := by
  simp [asyncWaitFrom, h1, h2]

/-- The polling loop skips over a run of non-stopping polls. -/
theorem asyncWaitFrom_skip (jobId : String) (polls : Nat → EvaluationJob)
    (elapsed : Nat → ℚ) (timeout : Option ℚ) :
    ∀ d fuel k,
      (∀ j, j < d →
        ((polls (k + j)).status.isTerminalCheck = false ∧
         timeoutTripped timeout (elapsed (k + j)) = false)) →
      asyncWaitFrom jobId polls elapsed timeout (d + fuel) k =
        asyncWaitFrom jobId polls elapsed timeout fuel (k + d)
  | 0, fuel, k, _ => by simp
  | d + 1, fuel, k, h => by
      have h0 := h 0 (Nat.succ_pos d)
      have hpeel : d + 1 + fuel = d + fuel + 1 := by omega
      rw [hpeel,
        asyncWaitFrom_continue jobId polls elapsed timeout (d + fuel) k
          (by simpa using h0.1) (by simpa using h0.2)]
      have hrest := asyncWaitFrom_skip jobId polls elapsed timeout d fuel
        (k + 1)
        (fun j hj => by
          simpa [show k + 1 + j = k + (j + 1) from by omega]
            using h (j + 1) (by omega))
      have hk : k + 1 + d = k + (d + 1) := by omega
      rw [hk] at hrest
      exact hrest

/-- The sync and async polling loops compute the same function. -/
theorem syncWaitFrom_eq_asyncWaitFrom (jobId : String)
    (polls : Nat → EvaluationJob) (elapsed : Nat → ℚ)
    (timeout : Option ℚ) :
    ∀ fuel k,
      syncWaitFrom jobId polls elapsed timeout fuel k =
        asyncWaitFrom jobId polls elapsed timeout fuel k
  | 0, _ => rfl
  | fuel + 1, k => by
      simp only [syncWaitFrom, asyncWaitFrom]
      rw [syncWaitFrom_eq_asyncWaitFrom jobId polls elapsed timeout fuel
        (k + 1)]

/-- C2: with a caller-supplied positive timeout, wait_for_completion
returns the polled job on the first poll whose status is terminal, and
raises TimeoutError on the first poll that reports a non-terminal
status after the deadline has passed; sync and async behave alike. -/
theorem wait_terminal_or_timeout (jobId : String)
    (polls : Nat → EvaluationJob) (elapsed : Nat → ℚ) (T : ℚ)
    (hT : 0 < T) (k fuel : Nat)
    (hbefore : ∀ j, j < k →
      (polls j).status.isTerminalCheck = false ∧ ¬ T < elapsed j) :
    ((polls k).status.isTerminalCheck = true →
      asyncWaitForCompletion jobId polls elapsed (some T) (k + (fuel + 1))
        = some (.finished (polls k)) ∧
      syncWaitForCompletion jobId polls elapsed (some T) (k + (fuel + 1))
        = some (.finished (polls k))) ∧
    ((polls k).status.isTerminalCheck = false → T < elapsed k →
      asyncWaitForCompletion jobId polls elapsed (some T) (k + (fuel + 1))
        = some (.timedOut jobId (some T)) ∧
      syncWaitForCompletion jobId polls elapsed (some T) (k + (fuel + 1))
        = some (.timedOut jobId (some T))) := by
  have hTne : T ≠ 0 := ne_of_gt hT
  have hsync :
      syncWaitForCompletion jobId polls elapsed (some T) (k + (fuel + 1)) =
        asyncWaitForCompletion jobId polls elapsed (some T)
          (k + (fuel + 1)) :=
    syncWaitFrom_eq_asyncWaitFrom jobId polls elapsed (some T)
      (k + (fuel + 1)) 0
  have hskip := asyncWaitFrom_skip jobId polls elapsed (some T) k (fuel + 1)
    0 (fun j hj => by
      rw [Nat.zero_add]
      refine ⟨(hbefore j hj).1, ?_⟩
      simp [timeoutTripped, hTne, (hbefore j hj).2])
  simp only [Nat.zero_add] at hskip
  constructor
  · intro hterm
    have ha : asyncWaitForCompletion jobId polls elapsed (some T)
        (k + (fuel + 1)) = some (.finished (polls k)) := by
      unfold asyncWaitForCompletion
      rw [hskip]
      simp [asyncWaitFrom, hterm]
    exact ⟨ha, hsync.trans ha⟩
  · intro hterm htime
    have ha : asyncWaitForCompletion jobId polls elapsed (some T)
        (k + (fuel + 1)) = some (.timedOut jobId (some T)) := by
      unfold asyncWaitForCompletion
      rw [hskip]
      simp [asyncWaitFrom, hterm, timeoutTripped, hTne, htime]
    exact ⟨ha, hsync.trans ha⟩

/-- Witness polls for the wait claims: the first poll reports RUNNING,
every later one COMPLETED. -/
def demoPolls : Nat → EvaluationJob := fun n =>
  if n = 0 then ⟨"job-1", .running, 0⟩ else ⟨"job-1", .completed, 0⟩

/-- Witness elapsed-time readings for the wait claims. -/
def demoElapsed : Nat → ℚ := fun n => n

/-- Witness for C2 at concrete inputs: with a 100 second timeout the
loop returns the job polled as COMPLETED on the second poll. -/
theorem wait_terminal_or_timeout_witness :
    asyncWaitForCompletion "job-1" demoPolls demoElapsed (some 100) 5 =
      some (.finished (demoPolls 1)) := by
  have hb : ∀ j, j < 1 →
      (demoPolls j).status.isTerminalCheck = false ∧
        ¬ (100 : ℚ) < demoElapsed j := by
    intro j hj
    have hj0 : j = 0 := Nat.lt_one_iff.mp hj
    subst hj0
    refine ⟨by decide, ?_⟩
    simp [demoElapsed]
  exact ((wait_terminal_or_timeout "job-1" demoPolls demoElapsed 100
    (by norm_num) 1 3 hb).1 (by decide)).1

/-- C8: a None or zero timeout disables the deadline: the loop can
never produce a TimeoutError, it returns the job of the first terminal
poll whenever one occurs, and as long as every poll so far is
non-terminal it just keeps polling. -/
theorem wait_disabled_timeout (jobId : String)
    (polls : Nat → EvaluationJob) (elapsed : Nat → ℚ) (tm : Option ℚ)
    (htm : tm = none ∨ tm = some 0) :
    (∀ fuel j t,
      asyncWaitForCompletion jobId polls elapsed tm fuel ≠
        some (.timedOut j t)) ∧
    (∀ k fuel,
      (∀ j, j < k → (polls j).status.isTerminalCheck = false) →
      (polls k).status.isTerminalCheck = true →
      asyncWaitForCompletion jobId polls elapsed tm (k + (fuel + 1)) =
        some (.finished (polls k)) ∧
      syncWaitForCompletion jobId polls elapsed tm (k + (fuel + 1)) =
        some (.finished (polls k))) ∧
    (∀ fuel,
      (∀ j, j < fuel → (polls j).status.isTerminalCheck = false) →
      asyncWaitForCompletion jobId polls elapsed tm fuel = none) := by
  have htrip : ∀ e, timeoutTripped tm e = false := by
    rcases htm with rfl | rfl <;> intro e <;> simp [timeoutTripped]
  have hnever : ∀ fuel k j t,
      asyncWaitFrom jobId polls elapsed tm fuel k ≠
        some (.timedOut j t) := by
    intro fuel
    induction fuel with
    | zero => intro k j t h; simp [asyncWaitFrom] at h
    | succ n ih =>
      intro k j t h
      by_cases hterm : (polls k).status.isTerminalCheck
      · simp [asyncWaitFrom, hterm] at h
      · rw [asyncWaitFrom_continue jobId polls elapsed tm n k
          (by simpa using hterm) (htrip (elapsed k))] at h
        exact ih (k + 1) j t h
  have hpolling : ∀ fuel k,
      (∀ j, j < fuel → (polls (k + j)).status.isTerminalCheck = false) →
      asyncWaitFrom jobId polls elapsed tm fuel k = none := by
    intro fuel
    induction fuel with
    | zero => intro k _; rfl
    | succ n ih =>
      intro k h
      rw [asyncWaitFrom_continue jobId polls elapsed tm n k
        (by simpa using h 0 (Nat.succ_pos n)) (htrip (elapsed k))]
      exact ih (k + 1) (fun j hj => by
        simpa [show k + 1 + j = k + (j + 1) from by omega]
          using h (j + 1) (by omega))
  refine ⟨fun fuel j t => hnever fuel 0 j t, ?_, ?_⟩
  · intro k fuel hbefore hterm
    have hsync :
        syncWaitForCompletion jobId polls elapsed tm (k + (fuel + 1)) =
          asyncWaitForCompletion jobId polls elapsed tm (k + (fuel + 1)) :=
      syncWaitFrom_eq_asyncWaitFrom jobId polls elapsed tm (k + (fuel + 1))
        0
    have hskip := asyncWaitFrom_skip jobId polls elapsed tm k (fuel + 1) 0
      (fun j hj => by
        rw [Nat.zero_add]
        exact ⟨hbefore j hj, htrip (elapsed j)⟩)
    simp only [Nat.zero_add] at hskip
    have ha : asyncWaitForCompletion jobId polls elapsed tm
        (k + (fuel + 1)) = some (.finished (polls k)) := by
      unfold asyncWaitForCompletion
      rw [hskip]
      simp [asyncWaitFrom, hterm]
    exact ⟨ha, hsync.trans ha⟩
  · intro fuel h
    exact hpolling fuel 0 (fun j hj => by simpa using h j hj)

/-- Witness for C8 at concrete inputs: with timeout None the loop
returns the job polled as COMPLETED on the second poll. -/
theorem wait_disabled_timeout_witness :
    asyncWaitForCompletion "job-1" demoPolls demoElapsed none 2 =
      some (.finished (demoPolls 1)) := by
  have hb : ∀ j, j < 1 → (demoPolls j).status.isTerminalCheck = false := by
    intro j hj
    have hj0 : j = 0 := Nat.lt_one_iff.mp hj
    subst hj0
    decide
  exact ((wait_disabled_timeout "job-1" demoPolls demoElapsed none
    (Or.inl rfl)).2.1 1 0 hb (by decide)).1

/-- C10: on equal transport-level inputs, every operation of the sync
client computes exactly what its async counterpart computes: submit,
get_job, cancel, list (both parameters and item extraction) and
wait_for_completion agree as functions. -/
theorem sync_async_equivalence :
    (∀ r, syncSubmit r = asyncSubmit r) ∧
    (∀ r, syncGetJob r = asyncGetJob r) ∧
    (∀ jid, syncGetJobRequest jid = asyncGetJobRequest jid) ∧
    (∀ jid o, syncCancel jid o = asyncCancel jid o) ∧
    (∀ st lim, syncListParams st lim = asyncListParams st lim) ∧
    (∀ st lim, syncListRequest st lim = asyncListRequest st lim) ∧
    (∀ d, syncListItems d = asyncListItems d) ∧
    (∀ jid polls elapsed tm fuel k,
      syncWaitFrom jid polls elapsed tm fuel k =
        asyncWaitFrom jid polls elapsed tm fuel k) ∧
    (∀ jid polls elapsed tm fuel,
      syncWaitForCompletion jid polls elapsed tm fuel =
        asyncWaitForCompletion jid polls elapsed tm fuel) :=
  ⟨fun _ => rfl, fun _ => rfl, fun _ => rfl, fun _ _ => rfl,
    fun _ _ => rfl, fun _ _ => rfl, fun _ => rfl,
    fun jid polls elapsed tm fuel k =>
      syncWaitFrom_eq_asyncWaitFrom jid polls elapsed tm fuel k,
    fun jid polls elapsed tm fuel =>
      syncWaitFrom_eq_asyncWaitFrom jid polls elapsed tm fuel 0⟩

end EvalHubSDK
